import Mathlib

/-!
Verification development for the Loan_Api repository (Django application
`applications`): a shallow embedding in Lean 4 of the risk-scoring service
(`applications/services.py`), the decision policy and submission workflow
(`applications/views.py`), the data model (`applications/models.py`) and the
serializer field lists (`applications/serializers.py`), together with theorems
settling the specification claims about them.

Modelling conventions:
  - Django model rows become Lean structures; the database becomes an explicit
    `DB` record of row lists that each operation threads through.
  - Python `Decimal`/`float` arithmetic is embedded exactly over `ℚ`.
  - Python exceptions become `Except` values; the exception class hierarchy
    relevant here (`requests.exceptions.RequestException` and its subclasses
    `Timeout`, `ConnectionError`, `HTTPError`, versus `KeyError`) is embedded
    as the inductive `PyExn`.
  - `hashlib.md5` and the seeded Mersenne-Twister generator of `random` are
    Python standard-library black boxes: they are abstracted as function
    parameters `hash : String → Nat` (the seed derivation) and
    `draw : Nat → Nat` (the seeded generator's draw); `random.randint (-12) 12`
    is, by its construction, a value of the form `-12 + d` with `0 ≤ d ≤ 24`
    determined by the seed.
-/

deriving instance DecidableEq for Except

namespace LoanApi

/-- The status enumeration of `LoanApplication.STATUS_CHOICES` (models.py 19-29). -/
inductive Status
  | pending
  | approved
  | rejected
  | manual_review
  deriving DecidableEq, Repr

/-- The stored string value of each status, as in `STATUS_CHOICES` (models.py 24-29). -/
def Status.str : Status → String
  | .pending => "pending"
  | .approved => "approved"
  | .rejected => "rejected"
  | .manual_review => "manual_review"

/-- The list of status strings accepted by the `status` choice field. -/
def statusChoices : List String :=
  ["pending", "approved", "rejected", "manual_review"]

/-- Choice-field validation of `LoanApplicationStatusSerializer` (serializers.py
27-31): a submitted status string is valid exactly when it is one of the four
declared choices, and then denotes the corresponding enum value. -/
def parseStatus : String → Option Status
  | "pending" => some .pending
  | "approved" => some .approved
  | "rejected" => some .rejected
  | "manual_review" => some .manual_review
  | _ => none

/-- The auto-decision policy of `LoanApplicationViewSet.create` (views.py
112-118): `risk_score < 30` approves, `risk_score > 70` rejects, everything in
between goes to manual review. -/
def decideStatus (score : Int) : Status :=
  if score < 30 then .approved
  else if score > 70 then .rejected
  else .manual_review

/-! ## Risk scoring service (services.py) -/

/-- Applicant payload handed to the scoring service (views.py 102-109). -/
structure ApplicantInfo where
  name : String
  email : String
  phone : String
  deriving DecidableEq, Repr

/-- The subclasses of `requests.exceptions.RequestException` that the live
call can raise: `Timeout`, `ConnectionError`, and `HTTPError` (the latter
raised by `response.raise_for_status()`). -/
inductive ReqExnKind
  | timeout
  | connectionError
  | httpError
  deriving DecidableEq, Repr

/-- The Python exceptions relevant to `RiskScoringService.get_risk_score`:
any `RequestException` (caught at services.py 26), or a `KeyError` from
`response['score']` (not caught). -/
inductive PyExn
  | requestException (k : ReqExnKind)
  | keyError (key : String)
  deriving DecidableEq, Repr

/-- `except RequestException` (services.py 26) catches exactly these. -/
def PyExn.isRequestException : PyExn → Bool
  | .requestException _ => true
  | .keyError _ => false

/-- Outcome of the outbound HTTP POST of `_call_external_api` (services.py
52-58): the request times out, the connection fails, or a response arrives
with some HTTP status code and JSON body (modelled as a string-to-integer
association list). -/
inductive NetOutcome
  | timeout
  | connectionFailure
  | response (statusCode : Nat) (body : List (String × Int))
  deriving DecidableEq, Repr

/-- `response.raise_for_status()` (services.py 60): raises `HTTPError` — a
subclass of `RequestException` — exactly for client-error and server-error
status codes (4xx and 5xx). -/
def raiseForStatus (code : Nat) : Except PyExn Unit :=
  if 400 ≤ code ∧ code < 600 then .error (.requestException .httpError)
  else .ok ()

/-- `RiskScoringService._call_external_api` (services.py 31-61): performs the
POST, raises the network-layer exception if any, runs `raise_for_status`, and
returns the parsed JSON body. -/
def callExternalApi (net : NetOutcome) : Except PyExn (List (String × Int)) :=
  match net with
  | .timeout => .error (.requestException .timeout)
  | .connectionFailure => .error (.requestException .connectionError)
  | .response code body =>
    match raiseForStatus code with
    | .error e => .error e
    | .ok _ => .ok body

/-- `RiskScoringService._calculate_fallback_score` (services.py 101-107):
always the fixed conservative value 50. -/
def calculateFallbackScore (_a : ApplicantInfo) (_amount : ℚ) : Int := 50

/-- Python 3 `round` on an exact rational: round half to even. -/
def pyRound (q : ℚ) : Int :=
  let f := q.floor
  let r := q - (f : ℚ)
  if r < 1/2 then f
  else if 1/2 < r then f + 1
  else if f % 2 = 0 then f else f + 1

/-- Character-list prefix test (structural helper for substring search). -/
def hasPrefixChars : List Char → List Char → Bool
  | [], _ => true
  | _ :: _, [] => false
  | p :: ps, x :: xs => decide (p = x) && hasPrefixChars ps xs

/-- Character-list substring test: `p` occurs contiguously in the list. -/
def hasSubstrChars (p : List Char) : List Char → Bool
  | [] => hasPrefixChars p []
  | x :: xs => hasPrefixChars p (x :: xs) || hasSubstrChars p xs

/-- Python substring containment `pat in s`. -/
def strContains (s pat : String) : Bool :=
  hasSubstrChars pat.data s.data

/-- `any(domain in email for domain in domains)` (services.py 85, 87). -/
def containsAny (s : String) (pats : List String) : Bool :=
  pats.any (fun p => strContains s p)

/-- Python `str.lower()` (ASCII-case folding, as `Char.toLower`). -/
def strLower (s : String) : String :=
  ⟨s.data.map Char.toLower⟩

/-- Helper for `tokenCount`: counts tokens, tracking whether the scan is
currently inside a token. -/
def countTokensAux : List Char → Bool → Nat
  | [], _ => 0
  | c :: cs, inTok =>
    if c.isWhitespace then countTokensAux cs false
    else (if inTok then 0 else 1) + countTokensAux cs true

/-- `len(name.split())` in Python: number of maximal whitespace-free tokens. -/
def tokenCount (name : String) : Nat :=
  countTokensAux name.data false

/-- The value of `random.randint (-12) 12` after `random.seed seed`
(services.py 74, 96), with the seeded generator abstracted as `draw`: a
draw-determined value of the form `-12 + d`, `0 ≤ d ≤ 24`. -/
def randOffset (draw : Nat → Nat) (seed : Nat) : Int :=
  -12 + ((draw seed % 25 : Nat) : Int)

/-- `RiskScoringService._calculate_mock_score` (services.py 63-99), with the
MD5-based seed derivation abstracted as `hash` applied to the concatenation
`f"{email}{loan_amount}"`, and the seeded generator abstracted as `draw`. -/
def calculateMockScore (hash : String → Nat) (draw : Nat → Nat)
    (a : ApplicantInfo) (amount : ℚ) : Int :=
  let seed := hash (a.email ++ toString amount)
  let base0 : ℚ := 50
  let base1 : ℚ := base0 + min 25 (amount / 10000 * 12)
  let email := strLower a.email
  let base2 : ℚ :=
    if email ≠ "" then
      if containsAny email ["gmail.com", "yahoo.com", "hotmail.com"] then base1 + 5
      else if containsAny email [".edu", ".gov", ".org"] then base1 - 8
      else base1
    else base1
  let base3 : ℚ :=
    if a.name ≠ "" ∧ tokenCount a.name ≥ 2 then base2 - 4 else base2
  let base4 : ℚ := base3 + (randOffset draw seed : ℚ)
  max 0 (min 100 (pyRound base4))

/-- Scoring-mode configuration (services.py 18: `settings.DEBUG` and
`settings.USE_REAL_RISK_API`). -/
structure ScoringConfig where
  debug : Bool
  useRealRiskApi : Bool
  deriving DecidableEq, Repr

/-- `RiskScoringService.get_risk_score` (services.py 12-29): mock mode when
`DEBUG` and not `USE_REAL_RISK_API`; otherwise the live call, returning the
response's `score` field, with any `RequestException` caught and answered by
the fallback score, and every other exception propagating. -/
def getRiskScore (cfg : ScoringConfig) (hash : String → Nat) (draw : Nat → Nat)
    (net : NetOutcome) (a : ApplicantInfo) (amount : ℚ) : Except PyExn Int :=
  if cfg.debug && !cfg.useRealRiskApi then
    .ok (calculateMockScore hash draw a amount)
  else
    let attempt : Except PyExn Int :=
      match callExternalApi net with
      | .error e => .error e
      | .ok body =>
        match body.lookup "score" with
        | some v => .ok v
        | none => .error (.keyError "score")
    match attempt with
    | .ok v => .ok v
    | .error e =>
      if e.isRequestException then .ok (calculateFallbackScore a amount)
      else .error e

/-- A live-mode configuration (production: `DEBUG = False`). -/
def liveCfg : ScoringConfig := ⟨false, false⟩

/-- A development configuration selecting the mock strategy. -/
def debugCfg : ScoringConfig := ⟨true, false⟩

/-- Concrete stand-in for the abstract MD5 seed derivation, for witnesses. -/
def hashZero : String → Nat := fun _ => 0

/-- Concrete stand-in for the abstract seeded generator, for witnesses. -/
def drawZero : Nat → Nat := fun _ => 0

/-! ## Data model (models.py) and database state -/

/-- An `Applicant` row (models.py 4-15): name, unique email, phone. -/
structure Applicant where
  id : Nat
  name : String
  email : String
  phone : String
  deriving DecidableEq, Repr

/-- A `LoanApplication` row (models.py 18-59): owning applicant (foreign key),
decimal amount, nullable risk score, status, creation instant (`created_at`,
modelled as an integer epoch-second count). `external_reference` is unused by
every operation modelled here and is omitted. -/
structure LoanApplication where
  id : Nat
  applicantId : Nat
  amount : ℚ
  risk_score : Option Int
  status : Status
  created_at : Int
  deriving DecidableEq, Repr

/-- The visible database state: the two tables plus the auto-increment
counters for their primary keys. -/
structure DB where
  applicants : List Applicant
  applications : List LoanApplication
  nextApplicantId : Nat
  nextApplicationId : Nat
  deriving DecidableEq, Repr

/-- The empty database. -/
def emptyDB : DB := ⟨[], [], 0, 0⟩

/-- The payload of `request.data.get('applicant', \x7b\x7d)`: a partial dict,
each key optionally present. -/
structure ApplicantData where
  name : Option String
  email : Option String
  phone : Option String
  deriving DecidableEq, Repr

/-- A submission request body: the applicant dict and the amount
(`request.data.get('amount')`). -/
structure SubmitRequest where
  applicant : ApplicantData
  amount : Option ℚ
  deriving DecidableEq, Repr

/-- Python truthiness of the applicant dict: an absent key contributes
nothing; the dict is truthy when non-empty. -/
def applicantDataTruthy (d : ApplicantData) : Bool :=
  d.name.isSome || d.email.isSome || d.phone.isSome

/-- Python truthiness of the amount value: `None` and `0` are falsy. -/
def amountTruthy : Option ℚ → Bool
  | none => false
  | some q => if q = 0 then false else true

/-- Python truthiness of `applicant_data.get('email')`: absent or empty is
falsy. -/
def emailTruthy : Option String → Bool
  | none => false
  | some s => if s = "" then false else true

/-- Step-1 validation of `LoanApplicationViewSet.create` (views.py 55-69):
the two 400-responses, in source order, before any persistence. -/
def validateSubmit (req : SubmitRequest) : Option String :=
  if !(applicantDataTruthy req.applicant) || !(amountTruthy req.amount) then
    some "Applicant data and amount are required"
  else if !(emailTruthy req.applicant.email) then
    some "Email is required in applicant data"
  else none

/-- Result of the applicant upsert: the row now backing the submission,
whether it was newly created, and — when it already existed — the
`update_fields` list actually persisted by `applicant.save`. -/
structure UpsertResult where
  applicant : Applicant
  created : Bool
  updateFields : List String
  deriving DecidableEq, Repr

/-- `Applicant.objects.get_or_create` plus the changed-field update
(views.py 72-92): look the applicant up by email; create it from the
supplied data if absent; otherwise overwrite name and/or phone, but only
for keys that are present and differ, persisting exactly those fields. -/
def upsertApplicant (db : DB) (d : ApplicantData) : UpsertResult × DB :=
  match db.applicants.find? (fun a => a.email == d.email.getD "") with
  | none =>
    let a : Applicant :=
      ⟨db.nextApplicantId, d.name.getD "", d.email.getD "", d.phone.getD ""⟩
    (⟨a, true, []⟩,
     { db with applicants := db.applicants ++ [a],
               nextApplicantId := db.nextApplicantId + 1 })
  | some a =>
    let step1 : Applicant × List String :=
      match d.name with
      | some n => if n ≠ a.name then ({ a with name := n }, ["name"]) else (a, [])
      | none => (a, [])
    let step2 : Applicant × List String :=
      match d.phone with
      | some p =>
        if p ≠ step1.1.phone then ({ step1.1 with phone := p }, step1.2 ++ ["phone"])
        else step1
      | none => step1
    let db' :=
      if step2.2 = [] then db
      else { db with applicants :=
               db.applicants.map (fun x => if x.id == a.id then step2.1 else x) }
    (⟨step2.1, false, step2.2⟩, db')

/-- `LoanApplication.objects.create(...)` (views.py 95-99): a fresh row with
the requested amount, no risk score yet, and initial status `pending`.
`MinValueValidator` on `amount` (models.py 36-40) does not run here: Django
model validators run only under `full_clean()`, which `objects.create` does
not call, so no minimum-amount check guards this insert. -/
def createApplication (db : DB) (a : Applicant) (amount : ℚ) (now : Int) :
    LoanApplication × DB :=
  let app : LoanApplication :=
    ⟨db.nextApplicationId, a.id, amount, none, .pending, now⟩
  (app,
   { db with applications := db.applications ++ [app],
             nextApplicationId := db.nextApplicationId + 1 })

/-- `application.save()` (views.py 120): write the row back by primary key. -/
def saveApplication (db : DB) (app : LoanApplication) : DB :=
  { db with applications :=
      db.applications.map (fun x => if x.id == app.id then app else x) }

/-- The applicant payload handed to the scoring service (views.py 102-109). -/
def Applicant.info (a : Applicant) : ApplicantInfo :=
  ⟨a.name, a.email, a.phone⟩

/-- The five workflow steps inside the `try` block of `create`, as injection
points for an unexpected failure. -/
inductive Step
  | upsert
  | createApp
  | scoring
  | decision
  | persist
  deriving DecidableEq, Repr

/-- Raise an (unexpected) exception at the designated step, if any. -/
def checkFault (fault : Option Step) (s : Step) : Except Unit Unit :=
  if fault = some s then .error () else .ok ()

/-- What `create` answers the caller (views.py 123, 60-68, 125-130). -/
inductive SubmitOutcome
  | created (app : LoanApplication)
  | badRequest (msg : String)
  | internalError
  deriving DecidableEq, Repr

/-- Steps 2-6 of the submission workflow — the body of the `try` block of
`LoanApplicationViewSet.create` (views.py 71-123) — threading the draft
database through upsert, application creation, scoring, decision and final
save. An injected fault, or a scoring exception, makes the computation
raise. -/
def runSubmitSteps (score : ApplicantInfo → ℚ → Except PyExn Int)
    (fault : Option Step) (db : DB) (d : ApplicantData) (amount : ℚ)
    (now : Int) : Except Unit (LoanApplication × DB) :=
  match checkFault fault .upsert with
  | .error e => .error e
  | .ok _ =>
    let ur := upsertApplicant db d
    match checkFault fault .createApp with
    | .error e => .error e
    | .ok _ =>
      let cr := createApplication ur.2 ur.1.applicant amount now
      match checkFault fault .scoring with
      | .error e => .error e
      | .ok _ =>
        match score ur.1.applicant.info amount with
        | .error _ => .error ()
        | .ok s =>
          match checkFault fault .decision with
          | .error e => .error e
          | .ok _ =>
            let app' := { cr.1 with risk_score := some s, status := decideStatus s }
            match checkFault fault .persist with
            | .error e => .error e
            | .ok _ => .ok (app', saveApplication cr.2 app')

/-- `LoanApplicationViewSet.create` (views.py 50-130). Validation failures
answer 400 before touching the database. The step 2-6 body runs under
`@transaction.atomic`; its `except Exception` handler (views.py 125-130)
references `logger`, which views.py never defines, so any caught exception
re-raises as a `NameError` that escapes the atomic block — rolling the
transaction back to the pre-call state — and surfaces through the framework
as an HTTP 500 internal error. -/
def submit (score : ApplicantInfo → ℚ → Except PyExn Int)
    (fault : Option Step) (db : DB) (req : SubmitRequest) (now : Int) :
    SubmitOutcome × DB :=
  match validateSubmit req with
  | some msg => (.badRequest msg, db)
  | none =>
    match runSubmitSteps score fault db req.applicant (req.amount.getD 0) now with
    | .ok good => (.created good.1, good.2)
    | .error _ => (.internalError, db)

/-! ## Status update (views.py 132-159) -/

/-- What `update_status` answers the caller. `notFound` is the 404 raised by
`self.get_object()` for a missing primary key (surfaced by the framework's
`Http404` handling); `invalidState` is the 400 for a non-`manual_review`
current status; `badRequest` is the serializer's 400 for an invalid status
value. -/
inductive UpdateOutcome
  | ok (app : LoanApplication)
  | invalidState
  | badRequest
  | notFound
  deriving DecidableEq, Repr

/-- `LoanApplicationViewSet.update_status` (views.py 132-159): look the
application up; reject unless its current status is `manual_review`; validate
the submitted status against the declared choices; on success persist the new
status — the serializer's field list confines the write to `status`. -/
def updateStatus (db : DB) (i : Nat) (newStatus : String) :
    UpdateOutcome × DB :=
  match db.applications.find? (fun a => a.id == i) with
  | none => (.notFound, db)
  | some app =>
    if app.status ≠ Status.manual_review then (.invalidState, db)
    else
      match parseStatus newStatus with
      | none => (.badRequest, db)
      | some s =>
        let app' := { app with status := s }
        (.ok app', saveApplication db app')

/-! ## Summary report (views.py 161-202, serializers.py 34-41) -/

/-- A JSON value appearing in the summary payload. -/
inductive JsonVal
  | nat (n : Nat)
  | rat (q : ℚ)
  | str (s : String)
  deriving DecidableEq, Repr

/-- Count of applications with the given status. -/
def countStatus (db : DB) (s : Status) : Nat :=
  (db.applications.filter (fun a => a.status == s)).length

/-- Python `round(x, 2)`: round half to even at two decimal places. -/
def pyRound2 (q : ℚ) : ℚ :=
  (pyRound (q * 100) : ℚ) / 100

/-- `timezone.now().isoformat()` rendered from the modelled instant. -/
def isoTimestamp (now : Int) : String := toString now

/-- Seven days, in the modelled epoch-second time unit. -/
def sevenDays : Int := 604800

/-- The `summary_data` dict assembled by `LoanApplicationViewSet.summary`
(views.py 167-199): per-status counts, approval rate, average amount, the
trailing-7-day count, and the current timestamp. -/
def summaryDict (db : DB) (now : Int) : List (String × JsonVal) :=
  let total := db.applications.length
  let approved := countStatus db .approved
  let rejected := countStatus db .rejected
  let pending := countStatus db .pending
  let manualReview := countStatus db .manual_review
  let approvalRate : ℚ :=
    if total > 0 then pyRound2 ((approved : ℚ) / (total : ℚ) * 100) else 0
  let avgAmount : ℚ :=
    if total = 0 then 0
    else ((db.applications.map (fun a => a.amount)).foldl (fun x y => x + y) 0) / (total : ℚ)
  let recent :=
    (db.applications.filter (fun a => decide (now - sevenDays ≤ a.created_at))).length
  [("total_applications", .nat total),
   ("approved_applications", .nat approved),
   ("rejected_applications", .nat rejected),
   ("pending_applications", .nat pending),
   ("manual_review_applications", .nat manualReview),
   ("approval_rate", .rat approvalRate),
   ("average_loan_amount", .rat avgAmount),
   ("recent_applications_7_days", .nat recent),
   ("timestamp", .str (isoTimestamp now))]

/-- The fields declared by `ReportSummarySerializer` (serializers.py 34-41). -/
def reportSummaryFields : List String :=
  ["total_applications", "approved_applications", "rejected_applications",
   "pending_applications", "manual_review_applications", "approval_rate",
   "average_loan_amount"]

/-- A DRF `Serializer` renders exactly its declared fields, each pulled from
the supplied data; undeclared keys of the input are dropped. -/
def serializeReportSummary (d : List (String × JsonVal)) :
    List (String × JsonVal) :=
  reportSummaryFields.filterMap (fun k => (d.lookup k).map (fun v => (k, v)))

/-- The response body of the `summary` action (views.py 201-202): the
assembled dict filtered through `ReportSummarySerializer`. -/
def summaryResponse (db : DB) (now : Int) : List (String × JsonVal) :=
  serializeReportSummary (summaryDict db now)

/-! ## Spec-side comparison definitions -/

/-- Structural suffix test on strings. -/
def strEndsWith (s suffix : String) : Bool :=
  hasPrefixChars suffix.data.reverse s.data.reverse

/-- The domain of an email address: the part after the last `@` (the whole
string when no `@` occurs). -/
def emailDomain (e : String) : String :=
  ⟨((e.data.reverse).takeWhile (fun c => decide (c ≠ '@'))).reverse⟩

/-- The mock scoring algorithm as the specification words it: "add 5 if the
email domain is a common free-mail provider, subtract 8 if the domain is
.edu/.gov/.org" — i.e. the adjustment keyed on the email's domain part, not
on substring containment in the whole address. Every other step follows the
code. Written for comparison with `calculateMockScore`. -/
def specMockScore (hash : String → Nat) (draw : Nat → Nat)
    (a : ApplicantInfo) (amount : ℚ) : Int :=
  let seed := hash (a.email ++ toString amount)
  let base1 : ℚ := 50 + min 25 (amount / 10000 * 12)
  let dom := emailDomain (strLower a.email)
  let base2 : ℚ :=
    if dom = "gmail.com" ∨ dom = "yahoo.com" ∨ dom = "hotmail.com" then base1 + 5
    else if strEndsWith dom ".edu" || strEndsWith dom ".gov" || strEndsWith dom ".org" then
      base1 - 8
    else base1
  let base3 : ℚ := if tokenCount a.name ≥ 2 then base2 - 4 else base2
  max 0 (min 100 (pyRound (base3 + (randOffset draw seed : ℚ))))

/-- The mock scoring algorithm as the amended claim words it: start at 50,
add the amount-risk term, add 5 when the lowercased email *contains* one of
the free-mail markers, otherwise subtract 8 when it contains `.edu`, `.gov`
or `.org`, subtract 4 for a non-empty name of at least two tokens, add the
seeded offset, then round and clamp to [0, 100]. Written for comparison with
`calculateMockScore`. -/
def specMockScoreAmended (hash : String → Nat) (draw : Nat → Nat)
    (a : ApplicantInfo) (amount : ℚ) : Int :=
  let seed := hash (a.email ++ toString amount)
  let amountRisk : ℚ := min 25 (amount / 10000 * 12)
  let emailLower := strLower a.email
  let domainAdj : ℚ :=
    if emailLower ≠ "" then
      if containsAny emailLower ["gmail.com", "yahoo.com", "hotmail.com"] then 5
      else if containsAny emailLower [".edu", ".gov", ".org"] then -8
      else 0
    else 0
  let nameAdj : ℚ := if a.name ≠ "" ∧ tokenCount a.name ≥ 2 then -4 else 0
  max 0 (min 100 (pyRound (50 + amountRisk + domainAdj + nameAdj + (randOffset draw seed : ℚ))))

/-! ## Concrete fixtures for witnesses and counterexamples -/

/-- A submission whose amount, 50, is below the declared minimum of 100. -/
def reqBelowMin : SubmitRequest :=
  ⟨⟨some "Alice", some "a@b.com", some ""⟩, some 50⟩

/-- The §8 example submission: email `new@x.com`, amount 5000. -/
def reqNewX : SubmitRequest :=
  ⟨⟨some "", some "new@x.com", some ""⟩, some 5000⟩

/-- A database holding one approved application of amount 500, created at
instant 0. -/
def dbOneApproved : DB :=
  ⟨[⟨0, "A", "a@b.com", ""⟩], [⟨0, 0, 500, some 10, Status.approved, 0⟩], 1, 1⟩

/-- A database holding one application under manual review. -/
def dbOneManual : DB :=
  ⟨[⟨0, "A", "a@b.com", ""⟩], [⟨0, 0, 500, some 50, Status.manual_review, 0⟩], 1, 1⟩

/-! ## Helper lemmas -/

/-- Every declared status-choice string parses to the status it denotes. -/
theorem parseStatus_choices (ns : String) (hns : ns ∈ statusChoices) :
    ∃ s, parseStatus ns = some s ∧ s.str = ns := by
  simp [statusChoices] at hns
  rcases hns with rfl | rfl | rfl | rfl
  · exact ⟨.pending, rfl, rfl⟩
  · exact ⟨.approved, rfl, rfl⟩
  · exact ⟨.rejected, rfl, rfl⟩
  · exact ⟨.manual_review, rfl, rfl⟩

/-- Success case of `updateStatus`: a found application under manual review
with a valid new status gets exactly that status written back. -/
theorem updateStatus_manual_ok (db : DB) (i : Nat) (app : LoanApplication)
    (ns : String) (s : Status)
    (hfind : db.applications.find? (fun a => a.id == i) = some app)
    (hst : app.status = Status.manual_review)
    (hparse : parseStatus ns = some s) :
    updateStatus db i ns =
      (UpdateOutcome.ok { app with status := s },
       saveApplication db { app with status := s }) := by
  simp [updateStatus, hfind, hst, hparse]

/-- After replacing the row with id `i` by `app'`, a lookup by id `i` finds
`app'`. -/
theorem find_replace_self (l : List LoanApplication) (i : Nat)
    (app app' : LoanApplication)
    (hfind : l.find? (fun a => a.id == i) = some app) (hid : app'.id = i) :
    (l.map (fun x => if x.id == app'.id then app' else x)).find?
      (fun a => a.id == i) = some app' := by
  induction l with
  | nil => simp at hfind
  | cons x xs ih =>
    by_cases hx : x.id = i
    · simp only [List.map_cons]
      rw [if_pos (by simp [hx, hid])]
      exact List.find?_cons_of_pos _ (by simp [hid])
    · rw [List.find?_cons_of_neg _ (by simp [hx])] at hfind
      simp only [List.map_cons]
      rw [if_neg (by simp [hid, hx])]
      rw [List.find?_cons_of_neg _ (by simp [hx])]
      exact ih hfind

/-- A successful pass through steps 2-6 always returns an application whose
status came out of the decision policy. -/
theorem runSubmitSteps_ok_shape (score : ApplicantInfo → ℚ → Except PyExn Int)
    (fault : Option Step) (db : DB) (d : ApplicantData) (amount : ℚ) (now : Int)
    (good : LoanApplication × DB)
    (h : runSubmitSteps score fault db d amount now = .ok good) :
    ∃ s : Int, good.1.status = decideStatus s := by
  unfold runSubmitSteps at h
  dsimp only at h
  repeat' split at h
  all_goals cases h
  all_goals exact ⟨_, rfl⟩

/-- The decision policy never outputs `pending`. -/
theorem decideStatus_not_pending (s : Int) :
    decideStatus s ≠ Status.pending ∧
    (decideStatus s = Status.approved ∨ decideStatus s = Status.rejected ∨
      decideStatus s = Status.manual_review) := by
  unfold decideStatus
  split_ifs <;> simp

/-- Symbolic evaluation of a faultless submission against the empty database
with an always-successful scoring function. -/
theorem submit_fresh (score : ApplicantInfo → ℚ → Int) (n email phone : String)
    (amount : ℚ) (now : Int) (hem : email ≠ "") (hamt : amount ≠ 0) :
    submit (fun a m => (Except.ok (score a m) : Except PyExn Int)) none emptyDB
        ⟨⟨some n, some email, some phone⟩, some amount⟩ now =
      (SubmitOutcome.created
        ⟨0, 0, amount, some (score ⟨n, email, phone⟩ amount),
         decideStatus (score ⟨n, email, phone⟩ amount), now⟩,
       ⟨[⟨0, n, email, phone⟩],
        [⟨0, 0, amount, some (score ⟨n, email, phone⟩ amount),
          decideStatus (score ⟨n, email, phone⟩ amount), now⟩], 1, 1⟩) := by
  simp [submit, validateSubmit, applicantDataTruthy, amountTruthy, emailTruthy, hem, hamt,
    runSubmitSteps, checkFault, upsertApplicant, createApplication, saveApplication,
    emptyDB, Applicant.info]

/-! ## Claim theorems -/

/-- C1: any unexpected failure during steps 2-6 of `submit` (applicant
upsert, application creation, scoring, decision, persistence) aborts the
entire operation — the database is returned exactly as it was and the caller
receives an internal error — while a step-1 validation failure returns its
400 message before any persistence occurs. -/
theorem submit_failure_aborts (score : ApplicantInfo → ℚ → Except PyExn Int)
    (fault : Option Step) (db : DB) (req : SubmitRequest) (now : Int) :
    (∀ msg, validateSubmit req = some msg →
      submit score fault db req now = (SubmitOutcome.badRequest msg, db)) ∧
    (∀ st, fault = some st → validateSubmit req = none →
      submit score fault db req now = (SubmitOutcome.internalError, db)) ∧
    (fault = none → validateSubmit req = none →
      ∀ e, score (upsertApplicant db req.applicant).1.applicant.info (req.amount.getD 0) =
          Except.error e →
      submit score fault db req now = (SubmitOutcome.internalError, db)) := by
  refine ⟨?_, ?_, ?_⟩
  · intro msg h
    simp [submit, h]
  · intro st hf hv
    subst hf
    cases st <;>
      simp [submit, hv, runSubmitSteps, checkFault] <;>
      cases hsc : score (upsertApplicant db req.applicant).1.applicant.info (req.amount.getD 0) <;>
      simp [hsc]
  · intro hf hv e hs
    subst hf
    simp [submit, hv, runSubmitSteps, checkFault, hs]

/-- C2 counterexample: a response that arrives successfully but carries an
erroneous HTTP status (503) does NOT propagate as an error — `raise_for_status`
raises `HTTPError`, a subclass of `RequestException`, which the service
catches and answers with the fallback score 50, even when the body carried a
provider score. -/
theorem live_error_status_triggers_fallback :
    getRiskScore liveCfg hashZero drawZero (NetOutcome.response 503 [("score", 91)])
        ⟨"", "", ""⟩ 0 = Except.ok 50 ∧
    (50 : Int) = calculateFallbackScore ⟨"", "", ""⟩ 0 :=
  ⟨rfl, rfl⟩

/-- C2 (amended): in live mode the fallback value 50 is returned exactly when
the live call raises a `RequestException` — a timeout, a connection failure,
or an HTTP error-status response (4xx/5xx) — while a successfully delivered
response with a non-error status propagates its `score` field, and raises a
`KeyError` (not caught, hence propagating) when the field is absent. -/
theorem live_fallback_on_request_exception (hash : String → Nat) (draw : Nat → Nat)
    (a : ApplicantInfo) (amt : ℚ) (code : Nat) (body : List (String × Int)) :
    getRiskScore liveCfg hash draw NetOutcome.timeout a amt = Except.ok 50 ∧
    getRiskScore liveCfg hash draw NetOutcome.connectionFailure a amt = Except.ok 50 ∧
    (400 ≤ code → code < 600 →
      getRiskScore liveCfg hash draw (NetOutcome.response code body) a amt = Except.ok 50) ∧
    (code < 400 ∨ 600 ≤ code → body.lookup "score" = none →
      getRiskScore liveCfg hash draw (NetOutcome.response code body) a amt =
        Except.error (PyExn.keyError "score")) ∧
    (code < 400 ∨ 600 ≤ code → ∀ v, body.lookup "score" = some v →
      getRiskScore liveCfg hash draw (NetOutcome.response code body) a amt = Except.ok v) := by
  have hraise : ∀ (h : 400 ≤ code ∧ code < 600),
      raiseForStatus code = .error (.requestException .httpError) := by
    intro h; unfold raiseForStatus; rw [if_pos h]
  have hok : ∀ (h : ¬(400 ≤ code ∧ code < 600)), raiseForStatus code = .ok () := by
    intro h; unfold raiseForStatus; rw [if_neg h]
  refine ⟨rfl, rfl, ?_, ?_, ?_⟩
  · intro h1 h2
    simp [getRiskScore, liveCfg, callExternalApi, hraise ⟨h1, h2⟩, PyExn.isRequestException,
      calculateFallbackScore]
  · intro h hnone
    simp [getRiskScore, liveCfg, callExternalApi, hok (by omega), hnone, PyExn.isRequestException]
  · intro h v hsome
    simp [getRiskScore, liveCfg, callExternalApi, hok (by omega), hsome]

/-- C2 witness: concrete instances — an HTTP 503 answers the fallback 50, and
an HTTP 200 whose body carries `score = 91` answers 91. -/
theorem live_fallback_witness :
    (400 ≤ 503 ∧ 503 < 600) ∧
    getRiskScore liveCfg hashZero drawZero (NetOutcome.response 503 []) ⟨"n", "e", "p"⟩ 5 =
      Except.ok 50 ∧
    getRiskScore liveCfg hashZero drawZero (NetOutcome.response 200 [("score", 91)])
      ⟨"n", "e", "p"⟩ 5 = Except.ok 91 :=
  ⟨⟨by decide, by decide⟩,
   (live_fallback_on_request_exception hashZero drawZero ⟨"n", "e", "p"⟩ 5 503 []).2.2.1
     (by decide) (by decide),
   (live_fallback_on_request_exception hashZero drawZero ⟨"n", "e", "p"⟩ 5 200
     [("score", 91)]).2.2.2.2 (Or.inl (by decide)) 91 (by decide)⟩

/-- C3: the decision policy is total and deterministic — a score strictly
below 30 approves, strictly above 70 rejects, everything from 30 to 70
inclusive goes to manual review; in particular 29 ↦ approved,
30 ↦ manual_review, 70 ↦ manual_review, 71 ↦ rejected. -/
theorem decision_policy_thresholds (s : Int) :
    (s < 30 → decideStatus s = Status.approved) ∧
    (70 < s → decideStatus s = Status.rejected) ∧
    (30 ≤ s → s ≤ 70 → decideStatus s = Status.manual_review) ∧
    decideStatus 29 = Status.approved ∧
    decideStatus 30 = Status.manual_review ∧
    decideStatus 70 = Status.manual_review ∧
    decideStatus 71 = Status.rejected := by
  refine ⟨?_, ?_, ?_, by decide, by decide, by decide, by decide⟩ <;>
    intros <;> unfold decideStatus <;> split_ifs <;> first | rfl | (exfalso; omega)

/-- C3 witness: the three threshold clauses applied at 29, 71 and 50. -/
theorem decision_policy_thresholds_witness :
    decideStatus 29 = Status.approved ∧ decideStatus 71 = Status.rejected ∧
    decideStatus 50 = Status.manual_review :=
  ⟨(decision_policy_thresholds 29).1 (by decide),
   (decision_policy_thresholds 71).2.1 (by decide),
   (decision_policy_thresholds 50).2.2.1 (by decide) (by decide)⟩

/-- C6: a successful submission never returns a `pending` application — the
returned status is one of approved, rejected, manual_review. -/
theorem submit_never_pending (score : ApplicantInfo → ℚ → Except PyExn Int)
    (fault : Option Step) (db : DB) (req : SubmitRequest) (now : Int)
    (app : LoanApplication) (db' : DB)
    (h : submit score fault db req now = (SubmitOutcome.created app, db')) :
    app.status ≠ Status.pending ∧
    (app.status = Status.approved ∨ app.status = Status.rejected ∨
      app.status = Status.manual_review) := by
  unfold submit at h
  cases hv : validateSubmit req with
  | some msg => rw [hv] at h; simp at h
  | none =>
    rw [hv] at h
    cases hr : runSubmitSteps score fault db req.applicant (req.amount.getD 0) now with
    | error e => rw [hr] at h; simp at h
    | ok good =>
      rw [hr] at h
      simp only [Prod.mk.injEq, SubmitOutcome.created.injEq] at h
      obtain ⟨s, hs⟩ := runSubmitSteps_ok_shape score fault db req.applicant
        (req.amount.getD 0) now good hr
      rw [h.1] at hs
      rw [hs]
      exact decideStatus_not_pending s

/-- C7: `update_status` answers not-found for a missing application,
invalid-state for any current status other than `manual_review`, and on a
`manual_review` application with a valid new status succeeds, changing only
the status field — amount, risk score and the applicant reference are
untouched, the applicant table is untouched, and every other application row
survives unchanged. -/
theorem update_status_contract (db : DB) (i : Nat) (ns : String) :
    (db.applications.find? (fun a => a.id == i) = none →
      updateStatus db i ns = (UpdateOutcome.notFound, db)) ∧
    (∀ app, db.applications.find? (fun a => a.id == i) = some app →
      app.status ≠ Status.manual_review →
      updateStatus db i ns = (UpdateOutcome.invalidState, db)) ∧
    (∀ app s, db.applications.find? (fun a => a.id == i) = some app →
      app.status = Status.manual_review → parseStatus ns = some s →
      updateStatus db i ns =
        (UpdateOutcome.ok { app with status := s },
         saveApplication db { app with status := s }) ∧
      ({ app with status := s }).amount = app.amount ∧
      ({ app with status := s }).risk_score = app.risk_score ∧
      ({ app with status := s }).applicantId = app.applicantId ∧
      (saveApplication db { app with status := s }).applicants = db.applicants ∧
      ∀ b, b ∈ db.applications → b.id ≠ app.id →
        b ∈ (saveApplication db { app with status := s }).applications) := by
  refine ⟨?_, ?_, ?_⟩
  · intro h
    simp [updateStatus, h]
  · intro app hfind hst
    simp [updateStatus, hfind, hst]
  · intro app s hfind hst hparse
    refine ⟨updateStatus_manual_ok db i app ns s hfind hst hparse, rfl, rfl, rfl, rfl, ?_⟩
    intro b hb hbid
    simp only [saveApplication]
    have hfb : (fun x => if x.id == ({ app with status := s } : LoanApplication).id
        then ({ app with status := s } : LoanApplication) else x) b = b := by
      simp only
      rw [if_neg (by simp [hbid])]
    exact hfb ▸ List.mem_map_of_mem _ hb

/-- C8: two submissions with the same email where the second supplies a
different name leave exactly one applicant row, carrying the second name;
two distinct applications exist, each referencing that applicant (id 0); and
the second upsert persists exactly the `name` field — the only field that
differed. -/
theorem resubmission_single_applicant (score : ApplicantInfo → ℚ → Int)
    (email n1 n2 phone : String) (amount : ℚ) (now : Int)
    (hne : n2 ≠ n1) (hem : email ≠ "") (hamt : amount ≠ 0) :
    (submit (fun a m => (Except.ok (score a m) : Except PyExn Int)) none
        (submit (fun a m => (Except.ok (score a m) : Except PyExn Int)) none emptyDB
          ⟨⟨some n1, some email, some phone⟩, some amount⟩ now).2
        ⟨⟨some n2, some email, some phone⟩, some amount⟩ now).2.applicants =
      [⟨0, n2, email, phone⟩] ∧
    (submit (fun a m => (Except.ok (score a m) : Except PyExn Int)) none
        (submit (fun a m => (Except.ok (score a m) : Except PyExn Int)) none emptyDB
          ⟨⟨some n1, some email, some phone⟩, some amount⟩ now).2
        ⟨⟨some n2, some email, some phone⟩, some amount⟩ now).2.applications =
      [⟨0, 0, amount, some (score ⟨n1, email, phone⟩ amount),
        decideStatus (score ⟨n1, email, phone⟩ amount), now⟩,
       ⟨1, 0, amount, some (score ⟨n2, email, phone⟩ amount),
        decideStatus (score ⟨n2, email, phone⟩ amount), now⟩] ∧
    (upsertApplicant
        (submit (fun a m => (Except.ok (score a m) : Except PyExn Int)) none emptyDB
          ⟨⟨some n1, some email, some phone⟩, some amount⟩ now).2
        ⟨some n2, some email, some phone⟩).1.updateFields = ["name"] ∧
    (upsertApplicant
        (submit (fun a m => (Except.ok (score a m) : Except PyExn Int)) none emptyDB
          ⟨⟨some n1, some email, some phone⟩, some amount⟩ now).2
        ⟨some n2, some email, some phone⟩).1.applicant = ⟨0, n2, email, phone⟩ := by
  rw [submit_fresh score n1 email phone amount now hem hamt]
  refine ⟨?_, ?_, ?_, ?_⟩ <;>
    simp [submit, validateSubmit, applicantDataTruthy, amountTruthy, emailTruthy, hem, hamt,
      hne, runSubmitSteps, checkFault, upsertApplicant, createApplication, saveApplication,
      Applicant.info]

/-- C9 (amended): the mock score equals the amended-spec formula (substring
domain adjustments), is an integer within [0, 100], uses a seeded offset
within [-12, 12], and is deterministic in (name, email, amount) — the phone
does not influence it. -/
theorem mock_score_amended_props (hash : String → Nat) (draw : Nat → Nat)
    (a a' : ApplicantInfo) (amount amount' : ℚ) (seed : Nat)
    (hn : a.name = a'.name) (he : a.email = a'.email) (ham : amount = amount') :
    calculateMockScore hash draw a amount = specMockScoreAmended hash draw a amount ∧
    0 ≤ calculateMockScore hash draw a amount ∧
    calculateMockScore hash draw a amount ≤ 100 ∧
    (-12 ≤ randOffset draw seed ∧ randOffset draw seed ≤ 12) ∧
    calculateMockScore hash draw a amount = calculateMockScore hash draw a' amount' := by
  refine ⟨?_, ?_, ?_, ⟨?_, ?_⟩, ?_⟩
  · simp only [calculateMockScore, specMockScoreAmended, containsAny]
    split_ifs <;> first | rfl | (congr 3; ring)
  · exact le_max_left 0 _
  · simp only [calculateMockScore]
    exact max_le (by norm_num) (min_le_left _ _)
  · unfold randOffset
    have := Nat.mod_lt (draw seed) (show 0 < 25 by norm_num)
    omega
  · unfold randOffset
    have := Nat.mod_lt (draw seed) (show 0 < 25 by norm_num)
    omega
  · simp only [calculateMockScore, hn, he, ham]

/-- C10: an application under manual review accepts any of the four declared
status values — `pending` and `manual_review` included — and after an update
back to `manual_review` the application remains eligible for yet another
update, so post-creation status mutations are not bounded at one. -/
theorem manual_review_updates_unbounded (db : DB) (i : Nat) (app : LoanApplication)
    (hfind : db.applications.find? (fun a => a.id == i) = some app)
    (hst : app.status = Status.manual_review) (ns : String) (hns : ns ∈ statusChoices) :
    (∃ app', (updateStatus db i ns).1 = UpdateOutcome.ok app' ∧ app'.status.str = ns) ∧
    (∀ ns2, ns2 ∈ statusChoices →
      ∃ app2, (updateStatus (updateStatus db i "manual_review").2 i ns2).1 =
        UpdateOutcome.ok app2) := by
  have hid : app.id = i := by
    have := List.find?_some hfind
    simpa using this
  constructor
  · obtain ⟨s, hp, hstr⟩ := parseStatus_choices ns hns
    refine ⟨{ app with status := s }, ?_, hstr⟩
    rw [updateStatus_manual_ok db i app ns s hfind hst hp]
  · intro ns2 hns2
    have hsecond : (updateStatus db i "manual_review").2 =
        saveApplication db { app with status := Status.manual_review } :=
      congrArg Prod.snd
        (updateStatus_manual_ok db i app "manual_review" Status.manual_review hfind hst rfl)
    have hfind2 : (saveApplication db { app with status := Status.manual_review
        }).applications.find? (fun a => a.id == i) =
        some { app with status := Status.manual_review } := by
      simp only [saveApplication]
      exact find_replace_self db.applications i app
        { app with status := Status.manual_review } hfind (by exact hid)
    obtain ⟨s2, hp2, _⟩ := parseStatus_choices ns2 hns2
    refine ⟨{ { app with status := Status.manual_review } with status := s2 }, ?_⟩
    rw [hsecond, updateStatus_manual_ok _ i _ ns2 s2 hfind2 rfl hp2]

section
set_option allowUnsafeReducibility true
attribute [local semireducible] Rat.add Rat.mul Rat.inv Rat.sub

/-- C4: submitting amount 50 — below the declared minimum of 100 — passes the
view's validation and creates both an applicant row and an application row
with amount 50: the `MinValueValidator(100)` declared on the model never runs
in this flow. -/
theorem below_minimum_amount_creates_records :
    (50 : ℚ) < 100 ∧
    submit (getRiskScore debugCfg hashZero drawZero NetOutcome.timeout) none emptyDB
        reqBelowMin 0 =
      (SubmitOutcome.created ⟨0, 0, 50, some 38, Status.manual_review, 0⟩,
       ⟨[⟨0, "Alice", "a@b.com", ""⟩],
        [⟨0, 0, 50, some 38, Status.manual_review, 0⟩], 1, 1⟩) := by
  decide

/-- C5: the summary view computes the trailing-7-day count and the timestamp
into its data dict, but `ReportSummarySerializer` declares neither field, so
the rendered response drops them; the counts, approval rate and average that
are declared come through, and the empty-set response is all zeros. -/
theorem summary_drops_recent_and_timestamp :
    (summaryResponse dbOneApproved 0).lookup "recent_applications_7_days" = none ∧
    (summaryResponse dbOneApproved 0).lookup "timestamp" = none ∧
    (summaryDict dbOneApproved 0).lookup "recent_applications_7_days" =
      some (JsonVal.nat 1) ∧
    (summaryDict dbOneApproved 0).lookup "timestamp" = some (JsonVal.str "0") ∧
    (summaryDict dbOneApproved 0).lookup "approval_rate" = some (JsonVal.rat 100) ∧
    (summaryDict dbOneApproved 0).lookup "average_loan_amount" = some (JsonVal.rat 500) ∧
    summaryResponse emptyDB 0 =
      [("total_applications", JsonVal.nat 0), ("approved_applications", JsonVal.nat 0),
       ("rejected_applications", JsonVal.nat 0), ("pending_applications", JsonVal.nat 0),
       ("manual_review_applications", JsonVal.nat 0), ("approval_rate", JsonVal.rat 0),
       ("average_loan_amount", JsonVal.rat 0)] := by
  decide

/-- C9 counterexample: at email `a@gmail.com.evil.net` the code adds the
free-mail bonus because it tests substring containment on the whole address —
the spec's domain-based reading gives a different score (43 versus 38); and
two calls with identical email and amount but different names also differ
(43 versus 39), so "identical email and amount yield the identical score" is
false as stated. -/
theorem mock_score_not_domain_based :
    calculateMockScore hashZero drawZero ⟨"", "a@gmail.com.evil.net", ""⟩ 0 = 43 ∧
    specMockScore hashZero drawZero ⟨"", "a@gmail.com.evil.net", ""⟩ 0 = 38 ∧
    calculateMockScore hashZero drawZero ⟨"John Smith", "a@gmail.com.evil.net", ""⟩ 0 = 39 := by
  decide

/-- C1 witness: concrete runs — a fault injected at the scoring step and a
scoring exception each abort to the untouched database with an internal
error, and a missing applicant dict fails validation with the 400 message. -/
theorem submit_failure_aborts_witness :
    validateSubmit reqNewX = none ∧
    submit (fun _ _ => Except.ok 50) (some Step.scoring) emptyDB reqNewX 0 =
      (SubmitOutcome.internalError, emptyDB) ∧
    submit (fun _ _ => Except.error (PyExn.keyError "score")) none emptyDB reqNewX 0 =
      (SubmitOutcome.internalError, emptyDB) ∧
    submit (fun _ _ => Except.ok 50) none emptyDB ⟨⟨none, none, none⟩, some 100⟩ 0 =
      (SubmitOutcome.badRequest "Applicant data and amount are required", emptyDB) :=
  ⟨by decide,
   (submit_failure_aborts (fun _ _ => Except.ok 50) (some Step.scoring) emptyDB
     reqNewX 0).2.1 Step.scoring rfl (by decide),
   (submit_failure_aborts (fun _ _ => Except.error (PyExn.keyError "score")) none emptyDB
     reqNewX 0).2.2 rfl (by decide) (PyExn.keyError "score") rfl,
   (submit_failure_aborts (fun _ _ => Except.ok 50) none emptyDB
     ⟨⟨none, none, none⟩, some 100⟩ 0).1 "Applicant data and amount are required" (by decide)⟩

/-- C6 witness: the §8 example — email `new@x.com`, amount 5000 — completes
with status `manual_review`, which is not `pending`. -/
theorem submit_never_pending_witness :
    (⟨0, 0, 5000, some 44, Status.manual_review, 0⟩ : LoanApplication).status ≠
      Status.pending :=
  (submit_never_pending (getRiskScore debugCfg hashZero drawZero NetOutcome.timeout) none
    emptyDB reqNewX 0 ⟨0, 0, 5000, some 44, Status.manual_review, 0⟩
    ⟨[⟨0, "", "new@x.com", ""⟩], [⟨0, 0, 5000, some 44, Status.manual_review, 0⟩], 1, 1⟩
    (by decide)).1

/-- C7 witness: a missing id answers 404; an approved application answers
invalid-state; a manual-review application updates to approved, with the
applicant table untouched. -/
theorem update_status_contract_witness :
    updateStatus dbOneManual 5 "approved" = (UpdateOutcome.notFound, dbOneManual) ∧
    updateStatus dbOneApproved 0 "approved" = (UpdateOutcome.invalidState, dbOneApproved) ∧
    updateStatus dbOneManual 0 "approved" =
      (UpdateOutcome.ok ⟨0, 0, 500, some 50, Status.approved, 0⟩,
       saveApplication dbOneManual ⟨0, 0, 500, some 50, Status.approved, 0⟩) :=
  ⟨(update_status_contract dbOneManual 5 "approved").1 (by decide),
   (update_status_contract dbOneApproved 0 "approved").2.1
     ⟨0, 0, 500, some 10, Status.approved, 0⟩ (by decide) (by decide),
   ((update_status_contract dbOneManual 0 "approved").2.2
     ⟨0, 0, 500, some 50, Status.manual_review, 0⟩ Status.approved
     (by decide) rfl rfl).1⟩

/-- C8 witness: submitting twice with email `ann@x.com`, names `Ann` then
`Anna`, leaves the single applicant row named `Anna` and an update confined
to the name field. -/
theorem resubmission_single_applicant_witness :
    (submit (fun _ _ => (Except.ok 42 : Except PyExn Int)) none
        (submit (fun _ _ => (Except.ok 42 : Except PyExn Int)) none emptyDB
          ⟨⟨some "Ann", some "ann@x.com", some "1"⟩, some 200⟩ 0).2
        ⟨⟨some "Anna", some "ann@x.com", some "1"⟩, some 200⟩ 0).2.applicants =
      [⟨0, "Anna", "ann@x.com", "1"⟩] ∧
    (upsertApplicant
        (submit (fun _ _ => (Except.ok 42 : Except PyExn Int)) none emptyDB
          ⟨⟨some "Ann", some "ann@x.com", some "1"⟩, some 200⟩ 0).2
        ⟨some "Anna", some "ann@x.com", some "1"⟩).1.updateFields = ["name"] :=
  ⟨(resubmission_single_applicant (fun _ _ => 42) "ann@x.com" "Ann" "Anna" "1" 200 0
      (by decide) (by decide) (by decide)).1,
   (resubmission_single_applicant (fun _ _ => 42) "ann@x.com" "Ann" "Anna" "1" 200 0
      (by decide) (by decide) (by decide)).2.2.1⟩

/-- C9 witness: at name `Jane Roe`, email `jane@yahoo.com`, amount 2000 the
code score equals the amended-spec score, and changing only the phone leaves
the score unchanged. -/
theorem mock_score_amended_props_witness :
    calculateMockScore hashZero drawZero ⟨"Jane Roe", "jane@yahoo.com", "123"⟩ 2000 =
      specMockScoreAmended hashZero drawZero ⟨"Jane Roe", "jane@yahoo.com", "123"⟩ 2000 ∧
    calculateMockScore hashZero drawZero ⟨"Jane Roe", "jane@yahoo.com", "123"⟩ 2000 =
      calculateMockScore hashZero drawZero ⟨"Jane Roe", "jane@yahoo.com", "999"⟩ 2000 :=
  ⟨(mock_score_amended_props hashZero drawZero ⟨"Jane Roe", "jane@yahoo.com", "123"⟩
      ⟨"Jane Roe", "jane@yahoo.com", "123"⟩ 2000 2000 0 rfl rfl rfl).1,
   (mock_score_amended_props hashZero drawZero ⟨"Jane Roe", "jane@yahoo.com", "123"⟩
      ⟨"Jane Roe", "jane@yahoo.com", "999"⟩ 2000 2000 0 rfl rfl rfl).2.2.2.2⟩

/-- C10 witness: the manual-review fixture accepts `approved`, and after an
update back to `manual_review` accepts a further update to `rejected`. -/
theorem manual_review_updates_unbounded_witness :
    (∃ app', (updateStatus dbOneManual 0 "approved").1 = UpdateOutcome.ok app' ∧
      app'.status.str = "approved") ∧
    (∃ app2, (updateStatus (updateStatus dbOneManual 0 "manual_review").2 0 "rejected").1 =
      UpdateOutcome.ok app2) :=
  ⟨(manual_review_updates_unbounded dbOneManual 0
      ⟨0, 0, 500, some 50, Status.manual_review, 0⟩ (by decide) rfl "approved" (by decide)).1,
   (manual_review_updates_unbounded dbOneManual 0
      ⟨0, 0, 500, some 50, Status.manual_review, 0⟩ (by decide) rfl "manual_review"
      (by decide)).2 "rejected" (by decide)⟩

end

end LoanApi
